import Mathlib

/-!
Shallow embedding of the Claude agent contrib of the Temporal Python SDK:
`temporalio/contrib/claude_agent/_tool_decorator.py` and
`temporalio/contrib/claude_agent/_workflow_helpers.py`.

Python mutation is modelled by explicit state passing on a `Receiver`
structure; Python dicts (which preserve insertion order and replace values
in place on key update) are modelled as association lists with the
corresponding insert/lookup/remove operations; exceptions raised by a tool
handler are modelled as a `HandlerOutcome` sum; `asyncio.Event` is a `Bool`
(its set flag); an `await` on an unset event is modelled as a distinguished
`suspends` observation of the call.
-/

namespace ClaudeAgent

/-- A fragment of Python values, enough for the opaque payloads
(`dict[str, Any]`) that flow through the receiver untouched. -/
inductive Val where
  | vstr (s : String)
  | vint (n : Int)
  | vbool (b : Bool)
deriving DecidableEq, Repr

/-- A Python `dict[str, Any]` payload: an insertion-ordered association list. -/
abbrev PyDict := List (String × Val)

/-! ### Python dict operations on association lists -/

/-- `d[k]` / `d.get(k)`: first binding of `k` (keys are unique in dicts
built by `dictInsert`). -/
def dictGet {α : Type} (d : List (String × α)) (k : String) : Option α :=
  match d with
  | [] => none
  | (k', v) :: rest => if k' = k then some v else dictGet rest k

/-- `d[k] = v`: replace the binding in place if the key is present
(Python dicts keep the key's position), else append at the end. -/
def dictInsert {α : Type} (d : List (String × α)) (k : String) (v : α) :
    List (String × α) :=
  match d with
  | [] => [(k, v)]
  | (k', v') :: rest =>
    if k' = k then (k, v) :: rest else (k', v') :: dictInsert rest k v

/-- `del d[k]` (no-op when absent, matching the guarded `del` in the source). -/
def dictRemove {α : Type} (d : List (String × α)) (k : String) :
    List (String × α) :=
  match d with
  | [] => []
  | (k', v') :: rest =>
    if k' = k then rest else (k', v') :: dictRemove rest k

/-- `k in d`. -/
def dictContains {α : Type} (d : List (String × α)) (k : String) : Bool :=
  match d with
  | [] => false
  | (k', _) :: rest => if k' = k then true else dictContains rest k

/-! ### `_tool_decorator.py` -/

/-- The `execution` literal of `@claude_tool`: `"claude" | "activity" | "workflow"`. -/
inductive Execution where
  | claude
  | activity
  | wf
deriving DecidableEq, Repr

/-- Outcome of running a tool handler coroutine to completion.  A Python
handler either returns a string, raises `ToolDenied(message, interrupt)`,
or raises some other exception (kept as its `str(e)`). -/
inductive HandlerOutcome where
  | ok (result : String)
  | denied (message : String) (interrupt : Bool)
  | fault (message : String)
deriving DecidableEq, Repr

/-- A tool handler: `Callable[[str, dict], Awaitable[str]]` run to
completion, with exceptions reified in the result. -/
abbrev Handler := String → PyDict → HandlerOutcome

/-- `ToolHandler` dataclass: metadata for a registered tool handler. -/
structure ToolHandler where
  tool_name : String
  execution : Execution
  handler : Handler

/-- `ToolRegistry` dataclass: `handlers` is a Python dict from tool name
to `ToolHandler`. -/
structure ToolRegistry where
  handlers : List (String × ToolHandler)

/-- `ToolRegistry.register`: `self.handlers[tool_name] = ToolHandler(...)`. -/
def ToolRegistry.register (reg : ToolRegistry) (tool_name : String)
    (handler : Handler) (execution : Execution) : ToolRegistry :=
  ⟨dictInsert reg.handlers tool_name
    { tool_name := tool_name, execution := execution, handler := handler }⟩

/-- `ToolRegistry.get`: `self.handlers.get(tool_name)`. -/
def ToolRegistry.get (reg : ToolRegistry) (tool_name : String) :
    Option ToolHandler :=
  dictGet reg.handlers tool_name

/-- `ToolRegistry.has`: `tool_name in self.handlers`. -/
def ToolRegistry.has (reg : ToolRegistry) (tool_name : String) : Bool :=
  dictContains reg.handlers tool_name

/-- One attribute of the workflow instance as seen by
`register_tool_handlers`'s scan of `dir(workflow_instance)`:
whether `getattr` succeeds, whether the value is callable, and the
`_claude_tool_name` / `_claude_tool_execution` metadata left by the
`@claude_tool` decorator (present together or not at all). -/
structure Attr where
  name : String
  accessible : Bool
  callable : Bool
  tool_meta : Option (String × Execution)
  handler : Handler

/-- `register_tool_handlers`: fold the scan over the instance's attributes
into a registry.  An attribute that raises on access is skipped by the
`except Exception: pass`; an accessible callable bearing the decorator
metadata is registered under its tool name. -/
def register_tool_handlers_scan (attrs : List Attr) (reg : ToolRegistry) :
    ToolRegistry :=
  match attrs with
  | [] => reg
  | a :: rest =>
    register_tool_handlers_scan rest
      (if a.accessible then
        if a.callable then
          match a.tool_meta with
          | some (tn, ex) => reg.register tn a.handler ex
          | none => reg
        else reg
      else reg)

/-! ### `_workflow_helpers.py` data model -/

/-- `ToolRequest` pydantic model. -/
structure ToolRequest where
  tool_id : String
  tool_name : String
  input : PyDict

/-- `ToolResult` pydantic model (defaults: `result=None`, `error=None`,
`interrupt=False`). -/
structure ToolResult where
  tool_id : String
  success : Bool
  result : Option String := none
  error : Option String := none
  interrupt : Bool := false
deriving DecidableEq, Repr

/-- The mutable state of one `ClaudeMessageReceiver` workflow instance.

`attrs` stands for the instance's (fixed) method table, scanned by tool
discovery.  `has_main` records whether the attribute group written by
`init_claude_receiver` (`_claude_messages`, `_claude_outgoing`,
`_claude_message_event`, `_pending_tool_requests`, `_tool_results`,
`_tool_request_event`, `_tool_result_events`) exists — the source's
`hasattr` guards each test one attribute of this group, and the group is
only ever created whole by `init_claude_receiver`.  `has_registry` records
whether `self._tool_registry` exists; in the source that attribute always
aliases this instance's entry of the process-wide
`_WORKFLOW_TOOL_REGISTRY` table (both are created by
`register_tool_handlers`), so one flag and one `registry` field model
both.  `asyncio.Event`s are their boolean set flags. -/
structure Receiver where
  attrs : List Attr
  has_main : Bool
  has_registry : Bool
  claude_messages : List PyDict
  claude_outgoing : List String
  claude_message_event : Bool
  pending_tool_requests : List ToolRequest
  tool_results : List (String × ToolResult)
  tool_request_event : Bool
  tool_result_events : List (String × Bool)
  registry : ToolRegistry

/-- A workflow instance on which `init_claude_receiver` has never run and
whose tool registry has never been created: no receiver attributes exist
yet. -/
def Receiver.uninit (attrs : List Attr) : Receiver where
  attrs := attrs
  has_main := false
  has_registry := false
  claude_messages := []
  claude_outgoing := []
  claude_message_event := false
  pending_tool_requests := []
  tool_results := []
  tool_request_event := false
  tool_result_events := []
  registry := ⟨[]⟩

/-- Module-level `register_tool_handlers(self)` as a state transition:
get-or-create this instance's registry in the process-wide table, scan the
instance's attributes into it, and return it. -/
def Receiver.register_tool_handlers (s : Receiver) : ToolRegistry × Receiver :=
  let base := if s.has_registry then s.registry else ⟨[]⟩
  let reg := register_tool_handlers_scan s.attrs base
  (reg, { s with registry := reg, has_registry := true })

/-- `init_claude_receiver`: create the empty buffers and events, then
register the `@claude_tool` handlers. -/
def Receiver.init_claude_receiver (s : Receiver) : Receiver :=
  let s : Receiver :=
    { s with
      has_main := true
      claude_messages := []
      claude_outgoing := []
      claude_message_event := false
      pending_tool_requests := []
      tool_results := []
      tool_request_event := false
      tool_result_events := [] }
  (s.register_tool_handlers).2

/-- The lazy-initialization guard `if not hasattr(self, "..."): self.init_claude_receiver()`
shared by the public entry points (each tests one attribute of the
`init_claude_receiver` group). -/
def Receiver.ensureInit (s : Receiver) : Receiver :=
  if s.has_main then s else s.init_claude_receiver

/-- Signal `receive_claude_message`: append to the inbound buffer and set
the readiness event. -/
def Receiver.receive_claude_message (s : Receiver) (message : PyDict) :
    Receiver :=
  let s := s.ensureInit
  { s with
    claude_messages := s.claude_messages ++ [message]
    claude_message_event := true }

/-- Observable outcome of a call that may await an `asyncio.Event`:
either it returns a value in a new state, or it suspends on an unset
event (what happens after the event is later set is a different trace). -/
inductive DrainOutcome where
  | returns (messages : List PyDict) (s : Receiver)
  | suspends

/-- `wait_for_claude_messages(timeout)`: with a timeout the wait is
bounded (`asyncio.wait_for`, `TimeoutError` swallowed) so the call always
proceeds to drain; with `timeout=None` it awaits the event, suspending
for good when the event is unset and nothing ever sets it.  Draining
swaps the buffer for an empty one and clears the event. -/
def Receiver.wait_for_claude_messages (s : Receiver) (timeout : Option Nat) :
    DrainOutcome :=
  let s := s.ensureInit
  let drained : DrainOutcome :=
    .returns s.claude_messages
      { s with claude_messages := [], claude_message_event := false }
  match timeout with
  | some _ => drained
  | none => if s.claude_message_event then drained else .suspends

/-- `get_claude_messages`: non-suspending drain of the inbound buffer. -/
def Receiver.get_claude_messages (s : Receiver) : List PyDict × Receiver :=
  let s := s.ensureInit
  (s.claude_messages,
    { s with claude_messages := [], claude_message_event := false })

/-- Update `get_and_consume_messages`: drain the outbound buffer. -/
def Receiver.get_and_consume_messages (s : Receiver) :
    List String × Receiver :=
  let s := s.ensureInit
  (s.claude_outgoing, { s with claude_outgoing := [] })

/-- `send_to_claude`: append to the outbound buffer. -/
def Receiver.send_to_claude (s : Receiver) (message : String) : Receiver :=
  let s := s.ensureInit
  { s with claude_outgoing := s.claude_outgoing ++ [message] }

/-- Method `get_tool_registry`: return `self._tool_registry`, creating it
via `register_tool_handlers` when the attribute does not exist yet. -/
def Receiver.get_tool_registry (s : Receiver) : ToolRegistry × Receiver :=
  if s.has_registry then (s.registry, s) else s.register_tool_handlers

/-- Signal `request_tool_execution`: create the per-id rendezvous event,
dispatch to the registered handler (absence, denial and faults all become
a stored `ToolResult`, never a raised exception), store the result and set
the event. -/
def Receiver.request_tool_execution (s : Receiver) (request : ToolRequest) :
    Receiver :=
  let s := s.ensureInit
  let s : Receiver :=
    { s with
      tool_result_events := dictInsert s.tool_result_events request.tool_id false }
  let (registry, s) := s.get_tool_registry
  let result : ToolResult :=
    match registry.get request.tool_name with
    | none =>
      { tool_id := request.tool_id
        success := false
        error := some ("No handler registered for tool: " ++ request.tool_name) }
    | some h =>
      match h.handler request.tool_id request.input with
      | .ok output =>
        { tool_id := request.tool_id, success := true, result := some output }
      | .denied message interrupt =>
        { tool_id := request.tool_id
          success := false
          error := some message
          interrupt := interrupt }
      | .fault message =>
        { tool_id := request.tool_id, success := false, error := some message }
  { s with
    tool_results := dictInsert s.tool_results request.tool_id result
    tool_result_events := dictInsert s.tool_result_events request.tool_id true }

/-- Observable outcome of `get_tool_result`. -/
inductive FetchOutcome where
  | returns (result : ToolResult) (s : Receiver)
  | suspends

/-- Update `get_tool_result`: await the per-id event if one exists (an
unset event means the call suspends); then pop the stored result, delete
the event, and return the result — or the `"Tool result not found"`
failure when nothing was stored. -/
def Receiver.get_tool_result (s : Receiver) (tool_id : String) :
    FetchOutcome :=
  let s := s.ensureInit
  let finish : FetchOutcome :=
    let result := dictGet s.tool_results tool_id
    let s : Receiver :=
      { s with
        tool_results := dictRemove s.tool_results tool_id
        tool_result_events := dictRemove s.tool_result_events tool_id }
    match result with
    | none =>
      .returns
        { tool_id := tool_id, success := false, error := some "Tool result not found" } s
    | some r => .returns r s
  match dictGet s.tool_result_events tool_id with
  | some ev => if ev then finish else .suspends
  | none => finish

/-- Query `get_registered_tools`: `list(self.get_tool_registry().handlers.keys())`. -/
def Receiver.get_registered_tools (s : Receiver) : List String × Receiver :=
  let (registry, s) := s.get_tool_registry
  (registry.handlers.map Prod.fst, s)

/-! ### Lemmas about the dict operations -/

theorem dictGet_dictInsert_self {α : Type} (d : List (String × α))
    (k : String) (v : α) : dictGet (dictInsert d k v) k = some v := by
  induction d with
  | nil => simp [dictInsert, dictGet]
  | cons p rest ih =>
    by_cases h : p.1 = k
    · simp [dictInsert, dictGet, h]
    · simp [dictInsert, dictGet, h, ih]

theorem dictInsert_of_get_none {α : Type} {d : List (String × α)}
    {k : String} {v : α} (h : dictGet d k = none) :
    dictInsert d k v = d ++ [(k, v)] := by
  induction d with
  | nil => simp [dictInsert]
  | cons p rest ih =>
    by_cases hk : p.1 = k
    · simp [dictGet, hk] at h
    · simp [dictGet, hk] at h
      simp [dictInsert, hk, ih h]

theorem dictInsert_append_self {α : Type} {d : List (String × α)}
    {k : String} {v v' : α} (h : dictGet d k = none) :
    dictInsert (d ++ [(k, v)]) k v' = d ++ [(k, v')] := by
  induction d with
  | nil => simp [dictInsert]
  | cons p rest ih =>
    by_cases hk : p.1 = k
    · simp [dictGet, hk] at h
    · simp [dictGet, hk] at h
      simp [dictInsert, hk, ih h]

theorem dictRemove_append_self {α : Type} {d : List (String × α)}
    {k : String} {v : α} (h : dictGet d k = none) :
    dictRemove (d ++ [(k, v)]) k = d := by
  induction d with
  | nil => simp [dictRemove]
  | cons p rest ih =>
    by_cases hk : p.1 = k
    · simp [dictGet, hk] at h
    · simp [dictGet, hk] at h
      simp [dictRemove, hk, ih h]

theorem dictGet_append_self {α : Type} {d : List (String × α)}
    {k : String} {v : α} (h : dictGet d k = none) :
    dictGet (d ++ [(k, v)]) k = some v := by
  induction d with
  | nil => simp [dictGet]
  | cons p rest ih =>
    by_cases hk : p.1 = k
    · simp [dictGet, hk] at h
    · simp [dictGet, hk] at h
      simp [dictGet, hk, ih h]

theorem dictRemove_of_get_none {α : Type} {d : List (String × α)}
    {k : String} (h : dictGet d k = none) : dictRemove d k = d := by
  induction d with
  | nil => simp [dictRemove]
  | cons p rest ih =>
    by_cases hk : p.1 = k
    · simp [dictGet, hk] at h
    · simp [dictGet, hk] at h
      simp [dictRemove, hk, ih h]

theorem dictContains_dictInsert_self {α : Type} (d : List (String × α))
    (k : String) (v : α) : dictContains (dictInsert d k v) k = true := by
  induction d with
  | nil => simp [dictInsert, dictContains]
  | cons p rest ih =>
    by_cases h : p.1 = k
    · simp [dictInsert, dictContains, h]
    · simp [dictInsert, dictContains, h, ih]

theorem dictContains_dictInsert_mono {α : Type} {d : List (String × α)}
    {k' : String} (k : String) (v : α) (h : dictContains d k' = true) :
    dictContains (dictInsert d k v) k' = true := by
  induction d with
  | nil => simp [dictContains] at h
  | cons p rest ih =>
    by_cases hk : p.1 = k
    · by_cases hkk' : k = k'
      · simp [dictInsert, dictContains, hk, hkk']
      · have hpk' : ¬p.1 = k' := by rw [hk]; exact hkk'
        simp [dictContains, hpk'] at h
        simp [dictInsert, dictContains, hk, hkk', h]
    · by_cases hpk' : p.1 = k'
      · have hk'k : ¬k' = k := by rw [← hpk']; exact hk
        simp [dictInsert, dictContains, hk, hpk', hk'k]
      · simp [dictContains, hpk'] at h
        simp [dictInsert, dictContains, hk, hpk', ih h]

/-! ### Lemmas about the registry and discovery scan -/

theorem register_has_mono {reg : ToolRegistry} {tn : String}
    (n : String) (h : Handler) (ex : Execution) (hh : reg.has tn = true) :
    (reg.register n h ex).has tn = true :=
  dictContains_dictInsert_mono n _ hh

theorem register_has_self (reg : ToolRegistry) (n : String) (h : Handler)
    (ex : Execution) : (reg.register n h ex).has n = true :=
  dictContains_dictInsert_self reg.handlers n _

theorem scan_has_mono (attrs : List Attr) (reg : ToolRegistry) (tn : String)
    (hh : reg.has tn = true) :
    (register_tool_handlers_scan attrs reg).has tn = true := by
  induction attrs generalizing reg with
  | nil => simpa [register_tool_handlers_scan] using hh
  | cons a rest ih =>
    simp only [register_tool_handlers_scan]
    apply ih
    by_cases h1 : a.accessible
    · by_cases h2 : a.callable
      · rcases hmeta : a.tool_meta with _ | ⟨tn', ex'⟩
        · simpa [h1, h2, hmeta] using hh
        · simp only [h1, h2, hmeta, if_true]
          exact register_has_mono _ _ _ hh
      · simpa [h1, h2] using hh
    · simpa [h1] using hh

theorem scan_registers {attrs : List Attr} {b : Attr} {tn : String}
    {ex : Execution} (hmem : b ∈ attrs) (hacc : b.accessible = true)
    (hcall : b.callable = true) (hmeta : b.tool_meta = some (tn, ex))
    (reg : ToolRegistry) :
    (register_tool_handlers_scan attrs reg).has tn = true := by
  induction attrs generalizing reg with
  | nil => cases hmem
  | cons a rest ih =>
    rcases List.mem_cons.mp hmem with hb | hb
    · subst hb
      simp only [register_tool_handlers_scan, hacc, hcall, hmeta, if_true]
      exact scan_has_mono rest _ tn (register_has_self _ _ _ _)
    · exact ih hb _

/-! ### The claims -/

/-- C2: when a correlation id has neither a pending rendezvous event nor a
stored result — never accepted, or already consumed — `get_tool_result`
returns the `"Tool result not found"` failure.  The conclusion is stated
with the `returns` observation, so the call provably does not suspend, and
the state comes back unchanged. -/
theorem c2_not_found_returns_without_suspending (s : Receiver)
    (tool_id : String) (hm : s.has_main = true)
    (hev : dictGet s.tool_result_events tool_id = none)
    (hres : dictGet s.tool_results tool_id = none) :
    s.get_tool_result tool_id =
      .returns
        { tool_id := tool_id, success := false, error := some "Tool result not found" }
        s := by
  have hinit : s.ensureInit = s := by simp [Receiver.ensureInit, hm]
  simp [Receiver.get_tool_result, hinit, hev, hres,
        dictRemove_of_get_none hres, dictRemove_of_get_none hev]

/-- C4: a handler that raises any exception other than `ToolDenied` never
propagates it out of the `request_tool_execution` signal handler (in the
model the transition is a total function into a successor state): the
stored `ToolResult` has `success=false`, `error` the stringified
exception, and `interrupt=false`; the rendezvous event is set. -/
theorem c4_handler_fault_stored (s : Receiver) (req : ToolRequest)
    (h : ToolHandler) (msg : String)
    (hm : s.has_main = true) (hr : s.has_registry = true)
    (hget : s.registry.get req.tool_name = some h)
    (hout : h.handler req.tool_id req.input = .fault msg) :
    dictGet (s.request_tool_execution req).tool_results req.tool_id =
      some
        { tool_id := req.tool_id, success := false, error := some msg,
          interrupt := false } ∧
    dictGet (s.request_tool_execution req).tool_result_events req.tool_id =
      some true := by
  constructor <;>
    simp [Receiver.request_tool_execution, Receiver.ensureInit,
          Receiver.get_tool_registry, hm, hr, hget, hout, dictGet_dictInsert_self]

/-- C5: a handler raising `ToolDenied(message, interrupt)` yields a stored
`ToolResult` with `success=false`, `error` the denial message, and
`interrupt` the denial's interrupt flag (so an `interrupt=true` denial
yields a Failure result with `interrupt=true`). -/
theorem c5_handler_denied_stored (s : Receiver) (req : ToolRequest)
    (h : ToolHandler) (msg : String) (intr : Bool)
    (hm : s.has_main = true) (hr : s.has_registry = true)
    (hget : s.registry.get req.tool_name = some h)
    (hout : h.handler req.tool_id req.input = .denied msg intr) :
    dictGet (s.request_tool_execution req).tool_results req.tool_id =
      some
        { tool_id := req.tool_id, success := false, error := some msg,
          interrupt := intr } := by
  simp [Receiver.request_tool_execution, Receiver.ensureInit,
        Receiver.get_tool_registry, hm, hr, hget, hout, dictGet_dictInsert_self]

/-- C6: dispatching a `ToolRequest` whose tool name has no registered
handler stores a `ToolResult` with `success=false` whose error message
contains the requested tool name as a substring. -/
theorem c6_no_handler_failure_mentions_tool (s : Receiver)
    (req : ToolRequest) (hm : s.has_main = true) (hr : s.has_registry = true)
    (hget : s.registry.get req.tool_name = none) :
    dictGet (s.request_tool_execution req).tool_results req.tool_id =
      some
        { tool_id := req.tool_id, success := false,
          error := some ("No handler registered for tool: " ++ req.tool_name) } ∧
    ∃ before after,
      "No handler registered for tool: " ++ req.tool_name =
        before ++ req.tool_name ++ after := by
  constructor
  · simp [Receiver.request_tool_execution, Receiver.ensureInit,
          Receiver.get_tool_registry, hm, hr, hget, dictGet_dictInsert_self]
  · exact ⟨"No handler registered for tool: ", "", by simp⟩

/-- C7: registration is last-writer-wins.  After registering `h1` and then
`h2` under the same name, `get` returns the entry holding `h2`, and a
dispatch of a `ToolRequest` for that name stores the result computed from
`h2`'s outcome, not `h1`'s. -/
theorem c7_register_last_writer_wins (reg : ToolRegistry) (n : String)
    (h1 h2 : Handler) (m1 m2 : Execution) (s : Receiver) (req : ToolRequest)
    (hm : s.has_main = true) (hr : s.has_registry = true)
    (hreg : s.registry = (reg.register n h1 m1).register n h2 m2)
    (hname : req.tool_name = n) :
    ((reg.register n h1 m1).register n h2 m2).get n =
      some { tool_name := n, execution := m2, handler := h2 } ∧
    dictGet (s.request_tool_execution req).tool_results req.tool_id =
      some
        (match h2 req.tool_id req.input with
          | .ok output =>
            { tool_id := req.tool_id, success := true, result := some output }
          | .denied message interrupt =>
            { tool_id := req.tool_id, success := false, error := some message,
              interrupt := interrupt }
          | .fault message =>
            { tool_id := req.tool_id, success := false, error := some message }) := by
  have hget : ((reg.register n h1 m1).register n h2 m2).get n =
      some { tool_name := n, execution := m2, handler := h2 } := by
    simp [ToolRegistry.get, ToolRegistry.register, dictGet_dictInsert_self]
  refine ⟨hget, ?_⟩
  rcases hout : h2 req.tool_id req.input with x | ⟨dmsg, dintr⟩ | fmsg <;>
    simp [Receiver.request_tool_execution, Receiver.ensureInit,
          Receiver.get_tool_registry, hm, hr, hreg, hname, hget, hout,
          dictGet_dictInsert_self]

/-- C1: for a fresh correlation id accepted by `request_tool_execution`
and dispatched to a registered handler returning `x`, the first
`get_tool_result` call returns the Success result carrying `x` and leaves
the state exactly as before the request — both the stored result and the
per-id rendezvous event are removed — and a second call for the same id
returns the not-found failure, so the result is delivered exactly once. -/
theorem c1_success_result_delivered_exactly_once (s : Receiver)
    (req : ToolRequest) (h : ToolHandler) (x : String)
    (hm : s.has_main = true) (hr : s.has_registry = true)
    (hget : s.registry.get req.tool_name = some h)
    (hout : h.handler req.tool_id req.input = .ok x)
    (hres : dictGet s.tool_results req.tool_id = none)
    (hev : dictGet s.tool_result_events req.tool_id = none) :
    (s.request_tool_execution req).get_tool_result req.tool_id =
      .returns { tool_id := req.tool_id, success := true, result := some x } s ∧
    s.get_tool_result req.tool_id =
      .returns
        { tool_id := req.tool_id, success := false, error := some "Tool result not found" }
        s := by
  obtain ⟨atts, hmn, hrg, cm, co, cme, ptr, tr, tre, trev, rg⟩ := s
  dsimp only at hm hr hget hres hev ⊢
  subst hm
  subst hr
  constructor <;>
    simp [Receiver.request_tool_execution, Receiver.get_tool_result,
          Receiver.ensureInit, Receiver.get_tool_registry, hget, hout, hres, hev,
          dictInsert_of_get_none hres, dictInsert_of_get_none hev,
          dictInsert_append_self hev, dictGet_append_self hev,
          dictGet_append_self hres, dictRemove_append_self hres,
          dictRemove_append_self hev, dictRemove_of_get_none hres,
          dictRemove_of_get_none hev]

/-- C3 (amended): on any instance whose tool registry already exists
(in particular any instance on which `init_claude_receiver` has run),
the query `get_registered_tools` has no side effects — the state comes
back exactly unchanged — and returns the snapshot of registered tool
names.  On a fresh instance the query lazily creates and populates the
registry, which is a state change (see the counterexample). -/
theorem c3_get_registered_tools_pure_after_init (s : Receiver)
    (hr : s.has_registry = true) :
    s.get_registered_tools = (s.registry.handlers.map Prod.fst, s) := by
  simp [Receiver.get_registered_tools, Receiver.get_tool_registry, hr]

/-- C8: after three messages are delivered via `receive_claude_message`
to an instance with an empty inbound buffer, one
`wait_for_claude_messages` call returns all three in arrival order and
empties the buffer, and a subsequent call with `timeout=0` returns the
empty list (a `returns` observation — it does not suspend). -/
theorem c8_three_messages_drained_in_order (s : Receiver)
    (m1 m2 m3 : PyDict) (hm : s.has_main = true)
    (hbuf : s.claude_messages = []) :
    (((s.receive_claude_message m1).receive_claude_message
          m2).receive_claude_message m3).wait_for_claude_messages none =
      .returns [m1, m2, m3]
        { s with claude_messages := [], claude_message_event := false } ∧
    ({ s with claude_messages := [], claude_message_event := false } :
        Receiver).claude_messages = [] ∧
    ({ s with claude_messages := [], claude_message_event := false } :
        Receiver).wait_for_claude_messages (some 0) =
      .returns [] { s with claude_messages := [], claude_message_event := false } := by
  have hinit : s.ensureInit = s := by simp [Receiver.ensureInit, hm]
  refine ⟨?_, rfl, ?_⟩
  · simp [Receiver.receive_claude_message, Receiver.wait_for_claude_messages,
          Receiver.ensureInit, hinit, hm, hbuf]
  · simp [Receiver.wait_for_claude_messages, Receiver.ensureInit, hm]

/-- C9: capability discovery is total and never fails: an attribute that
raises on access contributes nothing to the scan (it is skipped and the
scan of the remaining attributes is unchanged), while every accessible
callable attribute tagged with handler metadata ends up registered under
its tool name. -/
theorem c9_discovery_skips_inaccessible_and_registers_tagged :
    (∀ (before after : List Attr) (a : Attr) (reg : ToolRegistry),
      a.accessible = false →
      register_tool_handlers_scan (before ++ a :: after) reg =
        register_tool_handlers_scan (before ++ after) reg) ∧
    (∀ (attrs : List Attr) (b : Attr) (tn : String) (ex : Execution)
        (reg : ToolRegistry),
      b ∈ attrs → b.accessible = true → b.callable = true →
      b.tool_meta = some (tn, ex) →
      (register_tool_handlers_scan attrs reg).has tn = true) := by
  constructor
  · intro before after a reg ha
    induction before generalizing reg with
    | nil => simp [register_tool_handlers_scan, ha]
    | cons hd tl ih => simp [register_tool_handlers_scan, ih]
  · intro attrs b tn ex reg hmem hacc hcall hmeta
    exact scan_registers hmem hacc hcall hmeta reg

/-- C10: every public entry point is safe to call on an instance on which
`init_claude_receiver` has never run: the lazy-initialization guard first
establishes the initialized empty state, after which the call behaves
exactly as if `init_claude_receiver` had just been called (the two
evaluations are equal; in the model every transition is total, so no
missing-attribute error can occur). -/
theorem c10_entry_points_lazy_init (attrs : List Attr) (message : PyDict)
    (out : String) (timeout : Option Nat) (request : ToolRequest)
    (tool_id : String) :
    (Receiver.uninit attrs).receive_claude_message message =
      ((Receiver.uninit attrs).init_claude_receiver).receive_claude_message
        message ∧
    (Receiver.uninit attrs).wait_for_claude_messages timeout =
      ((Receiver.uninit attrs).init_claude_receiver).wait_for_claude_messages
        timeout ∧
    (Receiver.uninit attrs).get_claude_messages =
      ((Receiver.uninit attrs).init_claude_receiver).get_claude_messages ∧
    (Receiver.uninit attrs).get_and_consume_messages =
      ((Receiver.uninit attrs).init_claude_receiver).get_and_consume_messages ∧
    (Receiver.uninit attrs).send_to_claude out =
      ((Receiver.uninit attrs).init_claude_receiver).send_to_claude out ∧
    (Receiver.uninit attrs).request_tool_execution request =
      ((Receiver.uninit attrs).init_claude_receiver).request_tool_execution
        request ∧
    (Receiver.uninit attrs).get_tool_result tool_id =
      ((Receiver.uninit attrs).init_claude_receiver).get_tool_result tool_id :=
  ⟨rfl, rfl, rfl, rfl, rfl, rfl, rfl⟩

/-! ### Concrete instances for counterexamples and witnesses -/

/-- A handler that always succeeds with a fixed string. -/
def constHandler (x : String) : Handler := fun _ _ => .ok x

/-- A handler that always raises a non-`ToolDenied` exception. -/
def faultingHandler (msg : String) : Handler := fun _ _ => .fault msg

/-- A handler that always raises `ToolDenied(msg, interrupt)`. -/
def denyingHandler (msg : String) (interrupt : Bool) : Handler :=
  fun _ _ => .denied msg interrupt

/-- A `@claude_tool("Bash")`-decorated method as seen by discovery. -/
def bashAttr : Attr where
  name := "handle_bash"
  accessible := true
  callable := true
  tool_meta := some ("Bash", .wf)
  handler := constHandler "done"

/-- An attribute that raises when accessed during discovery. -/
def brokenAttr : Attr where
  name := "broken_property"
  accessible := false
  callable := true
  tool_meta := some ("Broken", .wf)
  handler := constHandler "never"

/-- A receiver with one `Bash` handler, after `init_claude_receiver`. -/
def readyReceiver : Receiver := (Receiver.uninit [bashAttr]).init_claude_receiver

/-- A receiver whose only handler (`Risky`) always faults. -/
def faultReceiver : Receiver :=
  (Receiver.uninit
    [{ name := "handle_risky", accessible := true, callable := true,
       tool_meta := some ("Risky", .wf),
       handler := faultingHandler "boom" }]).init_claude_receiver

/-- A receiver whose only handler (`Guard`) always denies with
`interrupt=true`. -/
def denyReceiver : Receiver :=
  (Receiver.uninit
    [{ name := "handle_guard", accessible := true, callable := true,
       tool_meta := some ("Guard", .wf),
       handler := denyingHandler "blocked" true }]).init_claude_receiver

/-- A receiver whose registry was built by registering `Echo` twice. -/
def doubleReceiver : Receiver :=
  { Receiver.uninit [] with
    has_main := true
    has_registry := true
    registry :=
      ((ToolRegistry.mk []).register "Echo" (constHandler "one") .wf).register
        "Echo" (constHandler "two") .activity }

/-- C3 counterexample: the claim quantifies over every workflow-instance
state, but on a fresh instance (no `init_claude_receiver` yet) the query
`get_registered_tools` mutates state — it lazily creates the
`_tool_registry` attribute and populates the registry with the discovered
handlers — so the returned state differs from the input state. -/
theorem c3_counterexample :
    ((Receiver.uninit [bashAttr]).get_registered_tools).2 ≠
      Receiver.uninit [bashAttr] ∧
    ((Receiver.uninit [bashAttr]).get_registered_tools).2.has_registry = true ∧
    (Receiver.uninit [bashAttr]).has_registry = false ∧
    ((Receiver.uninit [bashAttr]).get_registered_tools).2.registry.handlers.map
        Prod.fst = ["Bash"] ∧
    (Receiver.uninit [bashAttr]).registry.handlers.map Prod.fst = [] := by
  refine ⟨?_, rfl, rfl, rfl, rfl⟩
  intro hcontra
  exact absurd (congrArg Receiver.has_registry hcontra) (by decide)

/-! ### Witnesses -/

/-- C1 witness: the `Bash` request on the sample receiver is delivered
exactly once. -/
theorem c1_witness :
    (readyReceiver.request_tool_execution
        { tool_id := "t1", tool_name := "Bash", input := [] }).get_tool_result
        "t1" =
      .returns { tool_id := "t1", success := true, result := some "done" }
        readyReceiver ∧
    readyReceiver.get_tool_result "t1" =
      .returns
        { tool_id := "t1", success := false, error := some "Tool result not found" }
        readyReceiver :=
  c1_success_result_delivered_exactly_once readyReceiver
    { tool_id := "t1", tool_name := "Bash", input := [] }
    { tool_name := "Bash", execution := .wf, handler := constHandler "done" }
    "done" rfl rfl rfl rfl rfl rfl

/-- C2 witness: fetching a never-requested id on the sample receiver. -/
theorem c2_witness :
    readyReceiver.get_tool_result "t9" =
      .returns
        { tool_id := "t9", success := false, error := some "Tool result not found" }
        readyReceiver :=
  c2_not_found_returns_without_suspending readyReceiver "t9" rfl rfl rfl

/-- C3 witness: on the initialized sample receiver the query is pure. -/
theorem c3_witness :
    readyReceiver.get_registered_tools =
      (readyReceiver.registry.handlers.map Prod.fst, readyReceiver) :=
  c3_get_registered_tools_pure_after_init readyReceiver rfl

/-- C4 witness: a faulting `Risky` handler stores the stringified error. -/
theorem c4_witness :
    dictGet (faultReceiver.request_tool_execution
        { tool_id := "t2", tool_name := "Risky", input := [] }).tool_results
        "t2" =
      some
        { tool_id := "t2", success := false, error := some "boom",
          interrupt := false } ∧
    dictGet (faultReceiver.request_tool_execution
        { tool_id := "t2", tool_name := "Risky", input := [] }).tool_result_events
        "t2" = some true :=
  c4_handler_fault_stored faultReceiver
    { tool_id := "t2", tool_name := "Risky", input := [] }
    { tool_name := "Risky", execution := .wf, handler := faultingHandler "boom" }
    "boom" rfl rfl rfl rfl

/-- C5 witness: a denial with `interrupt=true` stores a Failure result
with `interrupt=true`. -/
theorem c5_witness :
    dictGet (denyReceiver.request_tool_execution
        { tool_id := "t3", tool_name := "Guard", input := [] }).tool_results
        "t3" =
      some
        { tool_id := "t3", success := false, error := some "blocked",
          interrupt := true } :=
  c5_handler_denied_stored denyReceiver
    { tool_id := "t3", tool_name := "Guard", input := [] }
    { tool_name := "Guard", execution := .wf,
      handler := denyingHandler "blocked" true }
    "blocked" true rfl rfl rfl rfl

/-- C6 witness: dispatching an unregistered tool name. -/
theorem c6_witness :
    dictGet (readyReceiver.request_tool_execution
        { tool_id := "t4", tool_name := "Unknown", input := [] }).tool_results
        "t4" =
      some
        { tool_id := "t4", success := false,
          error := some ("No handler registered for tool: " ++ "Unknown") } ∧
    ∃ before after,
      "No handler registered for tool: " ++ "Unknown" =
        before ++ "Unknown" ++ after :=
  c6_no_handler_failure_mentions_tool readyReceiver
    { tool_id := "t4", tool_name := "Unknown", input := [] } rfl rfl rfl

/-- C7 witness: after registering `Echo` twice, dispatch stores the
second handler's result. -/
theorem c7_witness :
    (((ToolRegistry.mk []).register "Echo" (constHandler "one") .wf).register
        "Echo" (constHandler "two") .activity).get "Echo" =
      some
        { tool_name := "Echo", execution := .activity,
          handler := constHandler "two" } ∧
    dictGet (doubleReceiver.request_tool_execution
        { tool_id := "t5", tool_name := "Echo", input := [] }).tool_results
        "t5" =
      some { tool_id := "t5", success := true, result := some "two" } :=
  c7_register_last_writer_wins (ToolRegistry.mk []) "Echo" (constHandler "one")
    (constHandler "two") .wf .activity doubleReceiver
    { tool_id := "t5", tool_name := "Echo", input := [] } rfl rfl rfl rfl

/-- C8 witness: three concrete messages drained in arrival order, then an
empty drain with `timeout=0`. -/
theorem c8_witness :
    (((readyReceiver.receive_claude_message
          [("n", Val.vint 1)]).receive_claude_message
          [("n", Val.vint 2)]).receive_claude_message
          [("n", Val.vint 3)]).wait_for_claude_messages none =
      .returns [[("n", Val.vint 1)], [("n", Val.vint 2)], [("n", Val.vint 3)]]
        { readyReceiver with claude_messages := [], claude_message_event := false } ∧
    ({ readyReceiver with claude_messages := [], claude_message_event := false } :
        Receiver).claude_messages = [] ∧
    ({ readyReceiver with claude_messages := [], claude_message_event := false } :
        Receiver).wait_for_claude_messages (some 0) =
      .returns []
        { readyReceiver with claude_messages := [], claude_message_event := false } :=
  c8_three_messages_drained_in_order readyReceiver
    [("n", Val.vint 1)] [("n", Val.vint 2)] [("n", Val.vint 3)] rfl rfl

/-- C9 witness: an inaccessible attribute is skipped by the discovery
scan, and the accessible tagged `Bash` attribute is registered. -/
theorem c9_witness :
    register_tool_handlers_scan ([bashAttr] ++ brokenAttr :: []) ⟨[]⟩ =
      register_tool_handlers_scan ([bashAttr] ++ []) ⟨[]⟩ ∧
    (register_tool_handlers_scan [bashAttr, brokenAttr] ⟨[]⟩).has "Bash" =
      true :=
  ⟨c9_discovery_skips_inaccessible_and_registers_tagged.1 [bashAttr] []
      brokenAttr ⟨[]⟩ rfl,
   c9_discovery_skips_inaccessible_and_registers_tagged.2
      [bashAttr, brokenAttr] bashAttr "Bash" .wf ⟨[]⟩
      (List.mem_cons_self _ _) rfl rfl rfl⟩

end ClaudeAgent
